import Mathlib

/-!
Shallow embedding of the code-generation pipeline of `run.py`
(functions `execute_script` and `process_task`), together with the
external-world inputs those functions consume.

The external collaborators (the AutoGen chat, CPython's `ast.parse`,
the `pip` subprocess, the script subprocess, `os.listdir`, the wall
clock) are modelled as fields of an `Env` record; the pipeline itself
is translated statement by statement.  Side effects (files written,
child processes launched) are recorded in an explicit trace so that
claims about persistence and subprocess launches can be stated.

Python string primitives (`str.strip`, `str.split`, substring
replacement, `str.endswith`) are given executable character-list
implementations so every definition evaluates inside the kernel.
-/

namespace LazzyCodder

/-! ## Python string primitives -/

/-- The ASCII whitespace characters `str.strip()` removes. -/
def isPyWs (c : Char) : Bool :=
  c = ' ' || c = '\t' || c = '\n' || c = '\r' || c = '\x0b' || c = '\x0c'

/-- Python `str.strip()`: drop leading and trailing whitespace. -/
def pyStrip (s : String) : String :=
  ⟨((s.data.dropWhile isPyWs).reverse.dropWhile isPyWs).reverse⟩

/-- Splitting on a non-empty separator, left to right, non-overlapping
(the shared semantics of Python `str.split(sep)` and `re` on a literal
pattern).  `fuel` bounds the recursion; it is instantiated with the
length of the text, which suffices. -/
def splitOnAux (sep : List Char) : Nat → List Char → List Char → List (List Char)
  | _, [], cur => [cur.reverse]
  | 0, cs, cur => [cur.reverse ++ cs]
  | n + 1, c :: rest, cur =>
    if sep.isPrefixOf (c :: rest) then
      cur.reverse :: splitOnAux sep n (rest.drop (sep.length - 1)) []
    else
      splitOnAux sep n rest (c :: cur)

/-- Python `s.split(sep)` for a non-empty literal separator. -/
def pySplitOn (s sep : String) : List String :=
  (splitOnAux sep.data s.data.length s.data []).map (fun cs => ⟨cs⟩)

/-- Joining a list of strings with a separator (inverse of `pySplitOn`). -/
def joinSep (sep : String) : List String → String
  | [] => ""
  | [x] => x
  | x :: xs => x ++ sep ++ joinSep sep xs

/-- Python `s.endswith(suffix)`. -/
def pyEndsWith (s suffix : String) : Bool :=
  suffix.data.isSuffixOf s.data

/-- Deleting every non-overlapping occurrence of a fixed non-empty
pattern, left to right (Python `re.sub(pattern, '', s)` on a literal
pattern).  `fuel` bounds the recursion; the length of the text suffices. -/
def removePatAux (pat : List Char) : Nat → List Char → List Char
  | 0, _ => []
  | _ + 1, [] => []
  | n + 1, c :: rest =>
    if pat.isPrefixOf (c :: rest) then
      removePatAux pat n (rest.drop (pat.length - 1))
    else
      c :: removePatAux pat n rest

/-- Python `re.sub(pat, '', s)` for a non-empty literal pattern. -/
def removePat (s pat : String) : String :=
  ⟨removePatAux pat.data s.data.length s.data⟩

/-! ## Data model of the pipeline -/

/-- One message of `chat_result.chat_history`: a `role` and a `content`
string, as accessed by `process_task` (run.py line 79). -/
structure Message where
  role : String
  content : String
deriving DecidableEq

/-- A child process launched by the pipeline: either the
`pip install` invocation (run.py line 97) or the script execution
inside `execute_script` (run.py lines 50-56). -/
inductive Proc where
  | pipInstall (pkgs : List String)
  | runScript (path : String)
deriving DecidableEq

/-- Outcome of `subprocess.run([sys.executable, script_path], ..., timeout=30)`
(run.py lines 50-56): either the process completed within the timeout
(with captured stdout, stderr and returncode), or the 30-second timeout
expired, in which case the Python library kills the child and raises
`subprocess.TimeoutExpired` — no exit code exists in that case, which the
`timedOut` constructor reflects by carrying none. -/
inductive ExecOutcome where
  | completed (stdout stderr : String) (returncode : Int)
  | timedOut
deriving DecidableEq

/-- The Python exceptions that can cross `process_task`'s `try` body:
`StopIteration` from `next` (line 79), `SyntaxError` from `ast.parse`
(line 83), `subprocess.CalledProcessError` from the checked pip call
(line 97), `subprocess.TimeoutExpired` from `execute_script` (line 55),
and any exception raised by `user_proxy.initiate_chat` (line 68). -/
inductive PyExc where
  | stopIteration
  | syntaxError (msg : String)
  | calledProcessError (returncode : Int) (cmd : List String)
  | timeoutExpired (cmd : List String) (seconds : Nat)
  | genFailure (msg : String)
deriving DecidableEq

/-- The external world a single `process_task` invocation observes:
the working directory (run.py line 12 takes `os.getcwd()`), the result
of `initiate_chat` (either a raised exception's `str` or a chat
history), the behaviour of `ast.parse` on each source text (`none` =
parses, `some msg` = raises `SyntaxError` whose `str` is `msg`), the
exit code of the pip subprocess, the wall-clock timestamp string, the
script subprocess outcome, and the `os.listdir(OUTPUT_DIR)` listing. -/
structure Env where
  cwd : String
  gen : Except String (List Message)
  parses : String → Option String
  pipExit : Int
  timestamp : String
  exec : ExecOutcome
  listing : List String

/-- `os.path.join` on POSIX paths as used in run.py. -/
def joinPath (a b : String) : String := a ++ "/" ++ b

/-- `OUTPUT_DIR = os.path.abspath(os.path.join(os.getcwd(), "output"))`
(run.py line 12), with `cwd` already absolute. -/
def outputDir (env : Env) : String := joinPath env.cwd "output"

/-- `SCRIPTS_DIR = os.path.join(OUTPUT_DIR, "generated_scripts")` (run.py line 13). -/
def scriptsDir (env : Env) : String := joinPath (outputDir env) "generated_scripts"

/-- `sys.executable`; its concrete value never matters to any property below. -/
def sysExecutable : String := "python3"

/-- `os.path.basename` on POSIX paths. -/
def basename (p : String) : String := (pySplitOn p "/").getLastD p

/-- Line 80: `re.sub(r'``````', '', code).strip()`.  The regex is the
*literal* six-backtick string, so only runs of six consecutive backticks
are deleted, then surrounding whitespace is stripped. -/
def stripTicks (s : String) : String := pyStrip (removePat s "``````")

/-- Line 79: `next(m["content"] for m in chat_result.chat_history if
m["role"] == "assistant")` — the FIRST history entry whose role is
`"assistant"`; `next` raises `StopIteration` when there is none. -/
def firstAssistant (hist : List Message) : Option Message :=
  hist.find? (fun m => m.role == "assistant")

/-- The literal text the dependency regex `# REQUIREMENTS: (.*)`
(run.py line 93) must match before its capture group. -/
def reqMarker : String := "# REQUIREMENTS: "

/-- The contribution of a single line to the requirements list.  Since
`.` does not match a newline, each regex match captures from the first
occurrence of the marker to the end of that line; the capture is split
on commas and each token stripped (line 94). -/
def lineReqs (line : String) : List String :=
  match pySplitOn line reqMarker with
  | [] => []
  | [_] => []
  | _ :: rest => (pySplitOn (joinSep reqMarker rest) ",").map pyStrip

/-- Lines 92-94: `re.finditer(r'# REQUIREMENTS: (.*)', code)` with
`requirements.extend([pkg.strip() for pkg in match.group(1).split(',')])`.
Successive non-overlapping matches are exactly one per line containing
the marker, in line order, so the loop is a fold over the lines. -/
def extractRequirements (code : String) : List String :=
  (pySplitOn code "\n").foldl (fun acc line => acc ++ lineReqs line) []

/-- A line that the dependency regex matches (it contains the marker). -/
def isMarkerLine (line : String) : Bool :=
  decide (2 ≤ (pySplitOn line reqMarker).length)

/-- The marker lines of a script, in order of appearance. -/
def markerLines (code : String) : List String :=
  (pySplitOn code "\n").filter isMarkerLine

/-- A single-quote character, for rendering Python `str(...)` of exceptions. -/
def sq : String := "\x27"

/-- Python `str` of a list of strings, as it appears inside exception messages. -/
def pyStrList (l : List String) : String :=
  "[" ++ joinSep ", " (l.map (fun s => sq ++ s ++ sq)) ++ "]"

/-- Python `str(e)` for each modelled exception: `str(StopIteration())`
is empty; `SyntaxError` and generation failures carry their message;
`CalledProcessError` and `TimeoutExpired` use their library formats. -/
def strExc : PyExc → String
  | .stopIteration => ""
  | .syntaxError msg => msg
  | .calledProcessError rc cmd =>
      "Command " ++ sq ++ pyStrList cmd ++ sq
        ++ " returned non-zero exit status " ++ toString rc ++ "."
  | .timeoutExpired cmd secs =>
      "Command " ++ sq ++ pyStrList cmd ++ sq
        ++ " timed out after " ++ toString secs ++ " seconds"
  | .genFailure msg => msg

/-- The `except` branch's f-string (run.py lines 122-125), with its
literal 8-space indentation. -/
def errorLog (msg : String) : String :=
  "❌ Task Failed\n        ────────────────────────────\n        Error: "
    ++ msg ++ "\n        "

/-- The success f-string (run.py lines 108-117): script basename, exit
code, stdout (`or 'No output'`), stderr (`or 'No errors'`). -/
def successLog (scriptBase : String) (returncode : Int) (stdout stderr : String) : String :=
  "✅ Task Completed Successfully\n        ────────────────────────────\n        Script: "
    ++ scriptBase
    ++ "\n        "
    ++ ("Exit Code: " ++ toString returncode)
    ++ "\n\n        === Console Output ===\n        "
    ++ (if stdout == "" then "No output" else stdout)
    ++ "\n\n        === Error Log ===\n        "
    ++ (if stderr == "" then "No errors" else stderr)

/-- The extension allow-list of run.py line 105. -/
def artifactSuffixes : List String := ["png", "jpg", "pdf", "csv", "xlsx"]

/-- `f.endswith(('png', 'jpg', 'pdf', 'csv', 'xlsx'))` — a plain suffix
test against each of the five strings (note: no dot). -/
def matchesArtifact (f : String) : Bool :=
  artifactSuffixes.any (fun e => pyEndsWith f e)

/-- Side effects performed so far: files written as (path, content)
pairs, and child processes launched, in order. -/
structure Effects where
  filesWritten : List (String × String)
  procs : List Proc
deriving DecidableEq

/-- The three-tuple `process_task` returns, paired with the effect trace. -/
structure TaskResult where
  log : String
  scriptPath : Option String
  outputFiles : Option (List String)
  filesWritten : List (String × String)
  procs : List Proc
deriving DecidableEq

/-- `f"script_{timestamp}.py"` (run.py lines 86-87). -/
def scriptFileName (env : Env) : String := "script_" ++ env.timestamp ++ ".py"

/-- `os.path.join(SCRIPTS_DIR, f"script_{timestamp}.py")` (run.py line 87). -/
def scriptPathOf (env : Env) : String := joinPath (scriptsDir env) (scriptFileName env)

/-- Lines 100-119: `execute_script(script_path)` followed by artifact
collection and success-log formatting.  On timeout the subprocess call
raises `TimeoutExpired` after killing the child; otherwise the listing
of `OUTPUT_DIR` is filtered by suffix, joined to absolute paths, and
the tuple `(log_output, script_path, output_files if output_files else
None)` is produced. -/
def runAndCollect (env : Env) (spath : String) (files : List (String × String))
    (procs0 : List Proc) :
    Effects × Except PyExc (String × String × Option (List String)) :=
  let procs1 := procs0 ++ [Proc.runScript spath]
  match env.exec with
  | .timedOut => (⟨files, procs1⟩, .error (.timeoutExpired [sysExecutable, spath] 30))
  | .completed out err rc =>
      let arts := (env.listing.filter matchesArtifact).map (fun f => joinPath (outputDir env) f)
      let log := successLog (basename spath) rc out err
      (⟨files, procs1⟩, .ok (log, spath, if arts.isEmpty then none else some arts))

/-- The body of `process_task`'s `try` block (run.py lines 66-119),
returning the accumulated effects and either a raised exception or the
success triple: initiate the chat, take the first assistant message,
strip and validate, write the script file, extract and (when non-empty)
pip-install the requirements with `check=True`, then execute and collect. -/
def processTaskCore (env : Env) :
    Effects × Except PyExc (String × String × Option (List String)) :=
  match env.gen with
  | .error msg => (⟨[], []⟩, .error (.genFailure msg))
  | .ok hist =>
    match firstAssistant hist with
    | none => (⟨[], []⟩, .error .stopIteration)
    | some m =>
      let code := stripTicks m.content
      match env.parses code with
      | some msg => (⟨[], []⟩, .error (.syntaxError msg))
      | none =>
        let spath := scriptPathOf env
        let files := [(spath, code)]
        let reqs := extractRequirements code
        if reqs.isEmpty then
          runAndCollect env spath files []
        else if env.pipExit == 0 then
          runAndCollect env spath files [Proc.pipInstall reqs]
        else
          (⟨files, [Proc.pipInstall reqs]⟩,
            .error (.calledProcessError env.pipExit
              ([sysExecutable, "-m", "pip", "install"] ++ reqs)))

/-- `process_task` (run.py lines 64-126): the `try` body, with the
`except Exception` handler mapping every raised exception `e` to
`(error_log, None, None)` where `error_log` embeds `str(e)`. -/
def processTask (env : Env) : TaskResult :=
  match processTaskCore env with
  | (eff, .ok (log, spath, arts)) =>
      ⟨log, some spath, arts, eff.filesWritten, eff.procs⟩
  | (eff, .error e) =>
      ⟨errorLog (strExc e), none, none, eff.filesWritten, eff.procs⟩

/-- Spec-side notion (for comparison with the code): the dot-extension
of a file name — the text after the last dot, empty when the name has
no dot. -/
def specFileExtension (f : String) : String :=
  match pySplitOn f "." with
  | [] => ""
  | [_] => ""
  | parts => parts.getLastD ""

/-- Spec-side notion: the file extension belongs to the allow-list
png/jpg/pdf/csv/xlsx. -/
def specExtensionAllowed (f : String) : Bool :=
  artifactSuffixes.contains (specFileExtension f)

/-- Spec-side notion (for comparison with the code): the FINAL
assistant-authored message of the exchange. -/
def lastAssistant (hist : List Message) : Option Message :=
  hist.reverse.find? (fun m => m.role == "assistant")

/-! ## Helper lemmas -/

/-- Folding list-append over a function is flattening the mapped lists. -/
theorem foldl_append_eq_flatten (f : String → List String) (ls : List String)
    (acc : List String) :
    ls.foldl (fun a l => a ++ f l) acc = acc ++ (ls.map f).flatten := by
  induction ls generalizing acc with
  | nil => simp
  | cons l t ih => simp [ih, List.append_assoc]

/-- A line the dependency regex does not match contributes no tokens. -/
theorem lineReqs_eq_nil_of_not_marker (l : String) (h : isMarkerLine l = false) :
    lineReqs l = [] := by
  unfold isMarkerLine at h
  unfold lineReqs
  cases hs : pySplitOn l reqMarker with
  | nil => rfl
  | cons a t =>
    cases t with
    | nil => rfl
    | cons b t2 =>
      rw [hs] at h
      simp at h

/-- Flattening mapped lists ignores elements mapped to `[]`. -/
theorem flatten_map_filter (f : String → List String) (p : String → Bool)
    (h : ∀ l, p l = false → f l = []) (ls : List String) :
    (ls.map f).flatten = ((ls.filter p).map f).flatten := by
  induction ls with
  | nil => rfl
  | cons a t ih =>
    by_cases hp : p a = true
    · simp [List.filter_cons, hp, ih]
    · have hfa := h a (by simpa using hp)
      simp [List.filter_cons, hp, hfa, ih]

/-- `extractRequirements` is the concatenation of the per-line token
lists over the marker lines, in order. -/
theorem extractRequirements_eq_flatten (code : String) :
    extractRequirements code = ((markerLines code).map lineReqs).flatten := by
  unfold extractRequirements markerLines
  rw [foldl_append_eq_flatten, List.nil_append,
    flatten_map_filter lineReqs isMarkerLine lineReqs_eq_nil_of_not_marker]

/-- Evaluation of `processTask` on the success path: generation
returned a history with a first assistant message, the stripped content
parses, the dependency step does not fail (empty manifest or pip exit
code zero), and the execution completes within the timeout. -/
theorem processTask_success
    (env : Env) (hist : List Message) (m : Message) (out err : String) (rc : Int)
    (hgen : env.gen = Except.ok hist)
    (hfind : firstAssistant hist = some m)
    (hparse : env.parses (stripTicks m.content) = none)
    (hreq : extractRequirements (stripTicks m.content) = [] ∨ env.pipExit = 0)
    (hexec : env.exec = ExecOutcome.completed out err rc) :
    processTask env =
      { log := successLog (basename (scriptPathOf env)) rc out err,
        scriptPath := some (scriptPathOf env),
        outputFiles :=
          if ((env.listing.filter matchesArtifact).map
              (fun f => joinPath (outputDir env) f)).isEmpty then none
          else some ((env.listing.filter matchesArtifact).map
              (fun f => joinPath (outputDir env) f)),
        filesWritten := [(scriptPathOf env, stripTicks m.content)],
        procs :=
          (if extractRequirements (stripTicks m.content) = [] then []
           else [Proc.pipInstall (extractRequirements (stripTicks m.content))])
            ++ [Proc.runScript (scriptPathOf env)] } := by
  by_cases hr : extractRequirements (stripTicks m.content) = []
  · simp [processTask, processTaskCore, runAndCollect, hgen, hfind, hparse, hexec, hr]
  · have hp : env.pipExit = 0 := hreq.resolve_left hr
    simp [processTask, processTaskCore, runAndCollect, hgen, hfind, hparse, hexec, hr, hp]

/-- Evaluation of `processTask` on the timeout path. -/
theorem processTask_timeout
    (env : Env) (hist : List Message) (m : Message)
    (hgen : env.gen = Except.ok hist)
    (hfind : firstAssistant hist = some m)
    (hparse : env.parses (stripTicks m.content) = none)
    (hreq : extractRequirements (stripTicks m.content) = [] ∨ env.pipExit = 0)
    (hexec : env.exec = ExecOutcome.timedOut) :
    processTask env =
      { log := errorLog (strExc
          (PyExc.timeoutExpired [sysExecutable, scriptPathOf env] 30)),
        scriptPath := none,
        outputFiles := none,
        filesWritten := [(scriptPathOf env, stripTicks m.content)],
        procs :=
          (if extractRequirements (stripTicks m.content) = [] then []
           else [Proc.pipInstall (extractRequirements (stripTicks m.content))])
            ++ [Proc.runScript (scriptPathOf env)] } := by
  by_cases hr : extractRequirements (stripTicks m.content) = []
  · simp [processTask, processTaskCore, runAndCollect, hgen, hfind, hparse, hexec, hr]
  · have hp : env.pipExit = 0 := hreq.resolve_left hr
    simp [processTask, processTaskCore, runAndCollect, hgen, hfind, hparse, hexec, hr, hp]

/-- Evaluation of `processTask` when the manifest is non-empty and the
pip subprocess exits non-zero. -/
theorem processTask_pipFail
    (env : Env) (hist : List Message) (m : Message)
    (hgen : env.gen = Except.ok hist)
    (hfind : firstAssistant hist = some m)
    (hparse : env.parses (stripTicks m.content) = none)
    (hr : extractRequirements (stripTicks m.content) ≠ [])
    (hp : env.pipExit ≠ 0) :
    processTask env =
      { log := errorLog (strExc (PyExc.calledProcessError env.pipExit
          ([sysExecutable, "-m", "pip", "install"]
            ++ extractRequirements (stripTicks m.content)))),
        scriptPath := none,
        outputFiles := none,
        filesWritten := [(scriptPathOf env, stripTicks m.content)],
        procs := [Proc.pipInstall (extractRequirements (stripTicks m.content))] } := by
  simp [processTask, processTaskCore, runAndCollect, hgen, hfind, hparse, hr, hp]

/-! ## Claims -/

/-- C1: for every input text that fails to parse as syntactically valid
Python (the `ast.parse` oracle reports a syntax error on the stripped
first assistant message), `process_task` fails before persistence and
execution: no script file is written, no child process (neither pip
install nor script execution) is launched, and the failure triple has
null script path and null artifact list. -/
theorem c1_invalid_syntax_no_persist_no_subprocess
    (env : Env) (hist : List Message) (m : Message) (msg : String)
    (hgen : env.gen = Except.ok hist)
    (hfind : firstAssistant hist = some m)
    (hparse : env.parses (stripTicks m.content) = some msg) :
    (processTask env).filesWritten = [] ∧ (processTask env).procs = [] ∧
    (processTask env).scriptPath = none ∧ (processTask env).outputFiles = none := by
  simp [processTask, processTaskCore, hgen, hfind, hparse]

/-- Concrete environment witnessing C1. -/
def envC1 : Env :=
  { cwd := "/app",
    gen := Except.ok [⟨"assistant", "def f(:"⟩],
    parses := fun _ => some "invalid syntax",
    pipExit := 0,
    timestamp := "20250101_120000",
    exec := ExecOutcome.completed "" "" 0,
    listing := [] }

/-- Witness for C1 at a concrete environment. -/
theorem c1_witness :
    (processTask envC1).filesWritten = [] ∧ (processTask envC1).procs = [] ∧
    (processTask envC1).scriptPath = none ∧ (processTask envC1).outputFiles = none :=
  c1_invalid_syntax_no_persist_no_subprocess envC1 [⟨"assistant", "def f(:"⟩]
    ⟨"assistant", "def f(:"⟩ "invalid syntax" rfl rfl rfl

/-- C2 (failing input): the sanitizer of run.py line 80 substitutes the
literal six-backtick pattern, so a generated text wrapped in
triple-backtick fenced-code delimiters keeps its delimiters: on the
fenced input the extraction step does NOT remove them and does NOT
return the enclosed text. -/
theorem c2_fenced_delimiters_not_removed :
    stripTicks "```python\nprint(1)\n```" = "```python\nprint(1)\n```" ∧
    stripTicks "```python\nprint(1)\n```" ≠ "print(1)" := by
  exact ⟨by decide, by decide⟩

/-- C3: the Dependency Resolver returns the empty list when no
`# REQUIREMENTS: ` marker line is present; for one marker line, that
line's remainder split on commas with whitespace trimmed from each
token; and in general (so for multiple marker lines) the concatenation
of all marker lines' token lists in order of appearance. -/
theorem c3_requirements_resolver (code : String) :
    (markerLines code = [] → extractRequirements code = []) ∧
    (∀ l, markerLines code = [l] → extractRequirements code = lineReqs l) ∧
    extractRequirements code = ((markerLines code).map lineReqs).flatten := by
  refine ⟨?_, ?_, extractRequirements_eq_flatten code⟩
  · intro h
    rw [extractRequirements_eq_flatten, h]
    rfl
  · intro l h
    rw [extractRequirements_eq_flatten, h]
    simp

/-- Witness for C3 at a concrete script with one marker line. -/
theorem c3_witness :
    extractRequirements "import numpy\n# REQUIREMENTS: numpy , pandas\nprint(1)"
      = ["numpy", "pandas"] := by
  have h :=
    (c3_requirements_resolver "import numpy\n# REQUIREMENTS: numpy , pandas\nprint(1)").2.1
      "# REQUIREMENTS: numpy , pandas" (by decide)
  rw [h]
  decide

/-- C10: `process_task` never propagates an exception: for every
environment, either the `try` body raised some exception and the result
is the error-formatted log with null script path and null artifact
list, or the body succeeded and the script path is non-null.  In both
cases a three-tuple with a log string is returned. -/
theorem c10_no_exception_escape (env : Env) :
    (∃ eff e, processTaskCore env = (eff, Except.error e) ∧
      (processTask env).log = errorLog (strExc e) ∧
      (processTask env).scriptPath = none ∧
      (processTask env).outputFiles = none) ∨
    (∃ eff log spath arts, processTaskCore env = (eff, Except.ok (log, spath, arts)) ∧
      (processTask env).log = log ∧
      (processTask env).scriptPath = some spath ∧
      (processTask env).outputFiles = arts) := by
  rcases h : processTaskCore env with ⟨eff, res⟩
  cases res with
  | error e =>
    left
    exact ⟨eff, e, rfl, by simp [processTask, h], by simp [processTask, h],
      by simp [processTask, h]⟩
  | ok v =>
    right
    rcases v with ⟨log, spath, arts⟩
    exact ⟨eff, log, spath, arts, rfl, by simp [processTask, h],
      by simp [processTask, h], by simp [processTask, h]⟩

/-- C4: for every execution that completes within the timeout but exits
with a non-zero exit code (indeed any exit code), the orchestrator still
returns the success-formatted result (not a pipeline failure), with a
non-null script path, and with the log text containing the exact
captured stderr content and the correct exit code. -/
theorem c4_nonzero_exit_still_success
    (env : Env) (hist : List Message) (m : Message) (out err : String) (rc : Int)
    (hgen : env.gen = Except.ok hist)
    (hfind : firstAssistant hist = some m)
    (hparse : env.parses (stripTicks m.content) = none)
    (hreq : extractRequirements (stripTicks m.content) = [] ∨ env.pipExit = 0)
    (hexec : env.exec = ExecOutcome.completed out err rc)
    (herr : err ≠ "") :
    (processTask env).scriptPath = some (scriptPathOf env) ∧
    (∃ rest, (processTask env).log = "✅ Task Completed Successfully" ++ rest) ∧
    (∃ p q, (processTask env).log = p ++ ("Exit Code: " ++ toString rc) ++ q) ∧
    (∃ p q, (processTask env).log = p ++ err ++ q) := by
  have hres := processTask_success env hist m out err rc hgen hfind hparse hreq hexec
  rw [hres]
  have he : (err == "") = false := beq_eq_false_iff_ne.mpr herr
  refine ⟨rfl, ?_, ?_, ?_⟩
  · refine ⟨"\n        ────────────────────────────\n        Script: "
      ++ (basename (scriptPathOf env) ++ ("\n        "
      ++ (("Exit Code: " ++ toString rc)
      ++ ("\n\n        === Console Output ===\n        "
      ++ ((if out == "" then "No output" else out)
      ++ ("\n\n        === Error Log ===\n        " ++ err)))))), ?_⟩
    have hsplit :
        ("✅ Task Completed Successfully\n        ────────────────────────────\n        Script: "
          : String)
          = "✅ Task Completed Successfully"
            ++ "\n        ────────────────────────────\n        Script: " := by
      decide
    simp only [successLog, he, Bool.false_eq_true, if_false]
    rw [hsplit]
    simp only [String.append_assoc]
  · refine ⟨"✅ Task Completed Successfully\n        ────────────────────────────\n        Script: "
      ++ basename (scriptPathOf env) ++ "\n        ",
      "\n\n        === Console Output ===\n        "
      ++ (if out == "" then "No output" else out)
      ++ "\n\n        === Error Log ===\n        " ++ err, ?_⟩
    simp only [successLog, he, Bool.false_eq_true, if_false]
    simp [String.append_assoc]
  · refine ⟨"✅ Task Completed Successfully\n        ────────────────────────────\n        Script: "
      ++ basename (scriptPathOf env) ++ "\n        "
      ++ ("Exit Code: " ++ toString rc)
      ++ "\n\n        === Console Output ===\n        "
      ++ (if out == "" then "No output" else out)
      ++ "\n\n        === Error Log ===\n        ", "", ?_⟩
    simp only [successLog, he, Bool.false_eq_true, if_false]
    simp [String.append_assoc, String.append_empty]

/-- Concrete environment witnessing C4: the script exits 2 with stderr. -/
def envC4 : Env :=
  { cwd := "/app",
    gen := Except.ok [⟨"assistant", "print(1)"⟩],
    parses := fun _ => none,
    pipExit := 0,
    timestamp := "20250101_120000",
    exec := ExecOutcome.completed "hi" "boom" 2,
    listing := [] }

/-- Witness for C4 at a concrete environment. -/
theorem c4_witness :
    (processTask envC4).scriptPath = some (scriptPathOf envC4) ∧
    (∃ rest, (processTask envC4).log = "✅ Task Completed Successfully" ++ rest) ∧
    (∃ p q, (processTask envC4).log = p ++ ("Exit Code: " ++ toString (2 : Int)) ++ q) ∧
    (∃ p q, (processTask envC4).log = p ++ "boom" ++ q) :=
  c4_nonzero_exit_still_success envC4 [⟨"assistant", "print(1)"⟩]
    ⟨"assistant", "print(1)"⟩ "hi" "boom" 2 rfl rfl rfl (Or.inl (by decide)) rfl
    (by decide)

/-- C5: for every script whose execution exceeds the 30-second timeout,
the subprocess call raises the `Timeout`-kind error (which, per the
Python library, is raised only after the child has been killed, so no
exit code exists), and `process_task` returns the failure triple: an
error log carrying the timeout message, null script path, null artifact
list — no partial result and no exit code from that run. -/
theorem c5_timeout_is_task_failure
    (env : Env) (hist : List Message) (m : Message)
    (hgen : env.gen = Except.ok hist)
    (hfind : firstAssistant hist = some m)
    (hparse : env.parses (stripTicks m.content) = none)
    (hreq : extractRequirements (stripTicks m.content) = [] ∨ env.pipExit = 0)
    (hexec : env.exec = ExecOutcome.timedOut) :
    (processTask env).scriptPath = none ∧
    (processTask env).outputFiles = none ∧
    (processTask env).log = errorLog (strExc
      (PyExc.timeoutExpired [sysExecutable, scriptPathOf env] 30)) := by
  rw [processTask_timeout env hist m hgen hfind hparse hreq hexec]
  exact ⟨rfl, rfl, rfl⟩

/-- Concrete environment witnessing C5: the script sleeps past the timeout. -/
def envC5 : Env :=
  { cwd := "/app",
    gen := Except.ok [⟨"assistant", "import time\ntime.sleep(60)"⟩],
    parses := fun _ => none,
    pipExit := 0,
    timestamp := "20250101_120000",
    exec := ExecOutcome.timedOut,
    listing := [] }

/-- Witness for C5 at a concrete environment. -/
theorem c5_witness :
    (processTask envC5).scriptPath = none ∧
    (processTask envC5).outputFiles = none ∧
    (processTask envC5).log = errorLog (strExc
      (PyExc.timeoutExpired [sysExecutable, scriptPathOf envC5] 30)) :=
  c5_timeout_is_task_failure envC5 [⟨"assistant", "import time\ntime.sleep(60)"⟩]
    ⟨"assistant", "import time\ntime.sleep(60)"⟩ rfl rfl rfl (Or.inl (by decide)) rfl

/-- C6: once validation has passed, if the dependency manifest is
non-empty and the pip subprocess exits non-zero then the whole pipeline
fails (null script path, null artifact list), the script is not
executed (no script-execution child process), while the already-written
script file remains persisted; and when the manifest is empty, no
installation subprocess is invoked at all. -/
theorem c6_install_failure_fatal_and_empty_manifest_no_pip
    (env : Env) (hist : List Message) (m : Message)
    (hgen : env.gen = Except.ok hist)
    (hfind : firstAssistant hist = some m)
    (hparse : env.parses (stripTicks m.content) = none) :
    (extractRequirements (stripTicks m.content) ≠ [] → env.pipExit ≠ 0 →
      (processTask env).scriptPath = none ∧
      (processTask env).outputFiles = none ∧
      (∀ p, Proc.runScript p ∉ (processTask env).procs) ∧
      (scriptPathOf env, stripTicks m.content) ∈ (processTask env).filesWritten) ∧
    (extractRequirements (stripTicks m.content) = [] →
      ∀ pkgs, Proc.pipInstall pkgs ∉ (processTask env).procs) := by
  constructor
  · intro hr hp
    rw [processTask_pipFail env hist m hgen hfind hparse hr hp]
    refine ⟨rfl, rfl, ?_, ?_⟩
    · intro p hmem
      simp at hmem
    · simp
  · intro hr pkgs
    cases hex : env.exec with
    | completed out err rc =>
      rw [processTask_success env hist m out err rc hgen hfind hparse (Or.inl hr) hex]
      simp [hr]
    | timedOut =>
      rw [processTask_timeout env hist m hgen hfind hparse (Or.inl hr) hex]
      simp [hr]

/-- Concrete environment witnessing C6: a one-package manifest and a
pip subprocess that exits 1. -/
def envC6 : Env :=
  { cwd := "/app",
    gen := Except.ok [⟨"assistant", "# REQUIREMENTS: numpy\nimport numpy"⟩],
    parses := fun _ => none,
    pipExit := 1,
    timestamp := "20250101_120000",
    exec := ExecOutcome.completed "" "" 0,
    listing := [] }

/-- Witness for C6 at a concrete environment. -/
theorem c6_witness :
    (extractRequirements (stripTicks "# REQUIREMENTS: numpy\nimport numpy") ≠ [] →
      envC6.pipExit ≠ 0 →
      (processTask envC6).scriptPath = none ∧
      (processTask envC6).outputFiles = none ∧
      (∀ p, Proc.runScript p ∉ (processTask envC6).procs) ∧
      (scriptPathOf envC6, stripTicks "# REQUIREMENTS: numpy\nimport numpy")
        ∈ (processTask envC6).filesWritten) ∧
    (extractRequirements (stripTicks "# REQUIREMENTS: numpy\nimport numpy") = [] →
      ∀ pkgs, Proc.pipInstall pkgs ∉ (processTask envC6).procs) :=
  c6_install_failure_fatal_and_empty_manifest_no_pip envC6
    [⟨"assistant", "# REQUIREMENTS: numpy\nimport numpy"⟩]
    ⟨"assistant", "# REQUIREMENTS: numpy\nimport numpy"⟩ rfl rfl rfl

/-- Concrete environment refuting C7's empty-content part: the chat
returns an assistant message with empty content.  CPython's
`ast.parse("")` succeeds (the empty module is syntactically valid
Python), which the parse oracle records by returning `none` on every
input this run performs. -/
def envC7 : Env :=
  { cwd := "/app",
    gen := Except.ok [⟨"assistant", ""⟩],
    parses := fun _ => none,
    pipExit := 0,
    timestamp := "20250101_120000",
    exec := ExecOutcome.completed "" "" 0,
    listing := [] }

/-- C7 counterexample: with empty generated content the pipeline does
NOT fail — the empty string is persisted to the script file and the
script is executed, contradicting the claim that an empty generated
string never proceeds to persistence and execution. -/
theorem c7_counterexample :
    (processTask envC7).scriptPath
      = some "/app/output/generated_scripts/script_20250101_120000.py" ∧
    (processTask envC7).filesWritten
      = [("/app/output/generated_scripts/script_20250101_120000.py", "")] ∧
    Proc.runScript "/app/output/generated_scripts/script_20250101_120000.py"
      ∈ (processTask envC7).procs := by
  decide

/-- C7 (amended): for every run in which the generation collaborator
call raises, the task is surfaced as a failure — error-formatted log
embedding the exception text, null script path, null artifact list —
with no retry, no file written and no child process launched. -/
theorem c7_generation_raise_surfaced_as_failure
    (env : Env) (msg : String)
    (hgen : env.gen = Except.error msg) :
    (processTask env).log = errorLog msg ∧
    (processTask env).scriptPath = none ∧
    (processTask env).outputFiles = none ∧
    (processTask env).filesWritten = [] ∧
    (processTask env).procs = [] := by
  simp [processTask, processTaskCore, hgen, strExc]

/-- Concrete environment witnessing the amended C7. -/
def envC7r : Env :=
  { cwd := "/app",
    gen := Except.error "API connection refused",
    parses := fun _ => none,
    pipExit := 0,
    timestamp := "20250101_120000",
    exec := ExecOutcome.completed "" "" 0,
    listing := [] }

/-- Witness for the amended C7 at a concrete environment. -/
theorem c7_witness :
    (processTask envC7r).log = errorLog "API connection refused" ∧
    (processTask envC7r).scriptPath = none ∧
    (processTask envC7r).outputFiles = none ∧
    (processTask envC7r).filesWritten = [] ∧
    (processTask envC7r).procs = [] :=
  c7_generation_raise_surfaced_as_failure envC7r "API connection refused" rfl

/-- The multi-turn chat history used to refute C8: two distinct
assistant-authored messages. -/
def histC8 : List Message :=
  [⟨"assistant", "x = 1"⟩, ⟨"user", "please revise"⟩, ⟨"assistant", "y = 2"⟩]

/-- Concrete environment refuting C8. -/
def envC8 : Env :=
  { cwd := "/app",
    gen := Except.ok histC8,
    parses := fun _ => none,
    pipExit := 0,
    timestamp := "20250101_120000",
    exec := ExecOutcome.completed "" "" 0,
    listing := [] }

/-- C8 counterexample: in a multi-turn exchange whose final
assistant-authored message is `y = 2`, the pipeline extracts and
persists `x = 1` — the FIRST assistant message, not the final one. -/
theorem c8_counterexample :
    lastAssistant histC8 = some ⟨"assistant", "y = 2"⟩ ∧
    (processTask envC8).filesWritten = [(scriptPathOf envC8, "x = 1")] ∧
    ("x = 1" : String) ≠ "y = 2" := by
  decide

/-- C8 (amended): the code text the pipeline extracts, validates and
persists is the FIRST assistant-authored message of the exchange
(stripped), not the final one. -/
theorem c8_uses_first_assistant_message
    (env : Env) (hist : List Message) (m : Message)
    (hgen : env.gen = Except.ok hist)
    (hfind : firstAssistant hist = some m)
    (hparse : env.parses (stripTicks m.content) = none) :
    (scriptPathOf env, stripTicks m.content) ∈ (processTask env).filesWritten := by
  by_cases hr : extractRequirements (stripTicks m.content) = []
  · cases hex : env.exec with
    | completed out err rc =>
      rw [processTask_success env hist m out err rc hgen hfind hparse (Or.inl hr) hex]
      simp
    | timedOut =>
      rw [processTask_timeout env hist m hgen hfind hparse (Or.inl hr) hex]
      simp
  · by_cases hp : env.pipExit = 0
    · cases hex : env.exec with
      | completed out err rc =>
        rw [processTask_success env hist m out err rc hgen hfind hparse (Or.inr hp) hex]
        simp
      | timedOut =>
        rw [processTask_timeout env hist m hgen hfind hparse (Or.inr hp) hex]
        simp
    · rw [processTask_pipFail env hist m hgen hfind hparse hr hp]
      simp

/-- Witness for the amended C8 at a concrete environment. -/
theorem c8_witness :
    (scriptPathOf envC8, stripTicks "x = 1") ∈ (processTask envC8).filesWritten :=
  c8_uses_first_assistant_message envC8 histC8 ⟨"assistant", "x = 1"⟩ rfl rfl rfl

/-- Concrete environment refuting C9: the output root contains a file
named `datapng` — its dot-extension is empty, not in the allow-list,
yet its name ends with the string `png`. -/
def envC9 : Env :=
  { cwd := "/app",
    gen := Except.ok [⟨"assistant", "print(1)"⟩],
    parses := fun _ => none,
    pipExit := 0,
    timestamp := "20250101_120000",
    exec := ExecOutcome.completed "" "" 0,
    listing := ["datapng"] }

/-- C9 counterexample: the artifact list contains `datapng`, whose file
extension does not belong to the allow-list — the filter is a bare
suffix test, not an extension test. -/
theorem c9_counterexample :
    (processTask envC9).outputFiles = some ["/app/output/datapng"] ∧
    specExtensionAllowed "datapng" = false := by
  decide

/-- C9 (amended): for every run in which execution itself did not
throw, regardless of the exit code, the artifact list is exactly the
immediate listing of the output root filtered to the names that END
WITH one of the strings png/jpg/pdf/csv/xlsx (plain suffix match, not
dot-extension match), each joined to the absolute output root, and an
absent result (`none`) when no entry matches. -/
theorem c9_artifacts_are_suffix_filtered_listing
    (env : Env) (hist : List Message) (m : Message) (out err : String) (rc : Int)
    (hgen : env.gen = Except.ok hist)
    (hfind : firstAssistant hist = some m)
    (hparse : env.parses (stripTicks m.content) = none)
    (hreq : extractRequirements (stripTicks m.content) = [] ∨ env.pipExit = 0)
    (hexec : env.exec = ExecOutcome.completed out err rc) :
    (processTask env).outputFiles =
      if ((env.listing.filter matchesArtifact).map
          (fun f => joinPath (outputDir env) f)).isEmpty then none
      else some ((env.listing.filter matchesArtifact).map
          (fun f => joinPath (outputDir env) f)) := by
  rw [processTask_success env hist m out err rc hgen hfind hparse hreq hexec]

/-- Witness for the amended C9 at a concrete environment. -/
theorem c9_witness :
    (processTask envC9).outputFiles =
      if ((envC9.listing.filter matchesArtifact).map
          (fun f => joinPath (outputDir envC9) f)).isEmpty then none
      else some ((envC9.listing.filter matchesArtifact).map
          (fun f => joinPath (outputDir envC9) f)) :=
  c9_artifacts_are_suffix_filtered_listing envC9 [⟨"assistant", "print(1)"⟩]
    ⟨"assistant", "print(1)"⟩ "" "" 0 rfl rfl rfl (Or.inl (by decide)) rfl

end LazzyCodder
